import Mathlib

/-!
Verification of the schema declarations in the relay-chalk feature
repository.  The repository declares three feature classes — Courier,
Delivery, Route — plus a VehicleType enumeration.  We embed each
declaration twice: as an ordered schema (the list of (field name,
semantic type) pairs exactly as annotated in the Python source) and as a
Lean structure whose field types mirror the Python annotations, so that
representability claims can be stated about concrete records.
-/

namespace RelayChalk

/-- Semantic types available to the feature declarations:
string, integer, floating-point, boolean, timestamp, and a closed
enumeration of strings (carrying its list of admissible wire values). -/
inductive SemType where
  | str
  | int
  | float
  | bool
  | timestamp
  | enum (values : List String)
  deriving DecidableEq, Repr

/-- `class VehicleType(Enum)` from src/features/courier_features.py. -/
inductive VehicleType where
  | CAR
  | MOPED
  | E_BIKE
  | VAN
  deriving DecidableEq, Repr

/-- The string value attached to each VehicleType member in the source. -/
def VehicleType.value : VehicleType → String
  | .CAR => "car"
  | .MOPED => "moped"
  | .E_BIKE => "ebike"
  | .VAN => "van"

/-- The members of the enumeration, in declaration order. -/
def VehicleType.members : List VehicleType :=
  [.CAR, .MOPED, .E_BIKE, .VAN]

/-- Looking an enumeration member up by its string value, as Python's
`VehicleType("moped")` does: the first declared member whose value
matches. -/
def VehicleType.ofValue (s : String) : Option VehicleType :=
  VehicleType.members.find? (fun v => v.value == s)

/-- The wire values of the enumeration, in declaration order. -/
def VehicleType.enumValues : List String :=
  VehicleType.members.map VehicleType.value

/-- A minimal stand-in for Python's `datetime`: only its existence as a
timestamp-typed payload matters to the declarations. -/
structure DateTime where
  year : Nat
  month : Nat
  day : Nat
  hour : Nat
  minute : Nat
  second : Nat
  deriving DecidableEq, Repr

/-- A fixed DateTime used when a concrete record is needed. -/
def DateTime.epoch : DateTime := ⟨1970, 1, 1, 0, 0, 0⟩

/-- `@features class Courier` from src/features/courier_features.py,
fields in declaration order with their annotated types. -/
structure Courier where
  courier_uid : String
  courier_transport_vehicle_type : VehicleType
  courier_experience_level : String
  courier_route_index : Int
  deriving DecidableEq, Repr

/-- The ordered (field name, semantic type) schema of Courier, read off
the annotations in src/features/courier_features.py. -/
def Courier.schema : List (String × SemType) :=
  [ ("courier_uid", .str),
    ("courier_transport_vehicle_type", .enum VehicleType.enumValues),
    ("courier_experience_level", .str),
    ("courier_route_index", .int) ]

/-- `@features class Delivery` from src/features/delivery_features.py,
fields in declaration order with their annotated types. -/
structure Delivery where
  shipment_uid : String
  route_uid : String
  attempt_uid : String
  parcel_weight_grams : Float
  parcel_dimensions_cm : String
  destination_address_contains_flat : Bool
  building_type_handover_complexity : String
  estimated_floor_number : Int
  delivery_note_safe_place_available : Bool
  time_of_day : Int
  lm_delivery_outcome_at_local : DateTime
  sequence_number : Int
  remaining_parcels_burden : Int
  destination_postcode : String
  destination_outcode : String
  avg_population_density : Float

/-- The ordered (field name, semantic type) schema of Delivery, read off
the annotations in src/features/delivery_features.py. -/
def Delivery.schema : List (String × SemType) :=
  [ ("shipment_uid", .str),
    ("route_uid", .str),
    ("attempt_uid", .str),
    ("parcel_weight_grams", .float),
    ("parcel_dimensions_cm", .str),
    ("destination_address_contains_flat", .bool),
    ("building_type_handover_complexity", .str),
    ("estimated_floor_number", .int),
    ("delivery_note_safe_place_available", .bool),
    ("time_of_day", .int),
    ("lm_delivery_outcome_at_local", .timestamp),
    ("sequence_number", .int),
    ("remaining_parcels_burden", .int),
    ("destination_postcode", .str),
    ("destination_outcode", .str),
    ("avg_population_density", .float) ]

/-- `@features class Route` from src/features/route_features.py,
fields in declaration order with their annotated types. -/
structure Route where
  route_uid : String
  composition_total_shipments : Int
  composition_count_containers : Int
  composition_count_loose_shipments : Int
  target_start_at_local : DateTime
  route_date : String
  collection_pitstop_uid : String
  collection_pitstop_postcode : String
  courier_uid : String
  transport_type : String
  avg_population_density : Float
  density_tier : String
  time_of_day : Int

/-- The ordered (field name, semantic type) schema of Route, read off
the annotations in src/features/route_features.py. -/
def Route.schema : List (String × SemType) :=
  [ ("route_uid", .str),
    ("composition_total_shipments", .int),
    ("composition_count_containers", .int),
    ("composition_count_loose_shipments", .int),
    ("target_start_at_local", .timestamp),
    ("route_date", .str),
    ("collection_pitstop_uid", .str),
    ("collection_pitstop_postcode", .str),
    ("courier_uid", .str),
    ("transport_type", .str),
    ("avg_population_density", .float),
    ("density_tier", .str),
    ("time_of_day", .int) ]

/-- The semantic type a schema declares for a field name, if any. -/
def lookupType (schema : List (String × SemType)) (name : String) :
    Option SemType :=
  (schema.find? (fun p => p.1 == name)).map (fun p => p.2)

/-- Whether a semantic type is drawn from the documented set
{string, integer, floating-point, boolean, timestamp,
closed enumeration of strings}. -/
def SemType.allowed : SemType → Bool
  | .str => true
  | .int => true
  | .float => true
  | .bool => true
  | .timestamp => true
  | .enum _ => true

/-- Whether a field name ends in "_uid", computed on its character
list. -/
def endsWithUid (s : String) : Bool :=
  "_uid".data.isSuffixOf s.data

/-- A raw input value as received by the external loader: strings or
integers are all the example scenario needs. -/
inductive RawValue where
  | rStr (s : String)
  | rInt (n : Int)
  deriving DecidableEq, Repr

/-- Field lookup in a raw record (first binding wins). -/
def lookupRaw (r : List (String × RawValue)) (name : String) :
    Option RawValue :=
  (r.find? (fun p => p.1 == name)).map (fun p => p.2)

/-- Modelled from the spec: the external platform's conforming loader
for the Courier schema (the loader itself is not in this repository).
It reads each declared field of the raw record, keeps string and
integer inputs verbatim, and resolves the vehicle-type string to a
VehicleType member by its wire value; any missing field, type mismatch
or unknown enumeration value fails. -/
def loadCourier (r : List (String × RawValue)) : Option Courier :=
  match lookupRaw r "courier_uid",
        lookupRaw r "courier_transport_vehicle_type",
        lookupRaw r "courier_experience_level",
        lookupRaw r "courier_route_index" with
  | some (.rStr uid), some (.rStr vt), some (.rStr lvl), some (.rInt idx) =>
      match VehicleType.ofValue vt with
      | some v => some ⟨uid, v, lvl, idx⟩
      | none => none
  | _, _, _, _ => none

/-- The raw record of the end-to-end example scenario. -/
def exampleRawCourier : List (String × RawValue) :=
  [ ("courier_uid", .rStr "C1"),
    ("courier_transport_vehicle_type", .rStr "moped"),
    ("courier_experience_level", .rStr "novice"),
    ("courier_route_index", .rInt 3) ]

end RelayChalk

namespace RelayChalk

/-- Claim C1: the VehicleType enumeration declares exactly four members
CAR, MOPED, E_BIKE, VAN whose string values are exactly "car", "moped",
"ebike", "van" respectively, and no two members share a value. -/
theorem C1_vehicle_type_members :
    VehicleType.members = [.CAR, .MOPED, .E_BIKE, .VAN] ∧
    VehicleType.members.length = 4 ∧
    (∀ v : VehicleType, v ∈ VehicleType.members) ∧
    VehicleType.CAR.value = "car" ∧
    VehicleType.MOPED.value = "moped" ∧
    VehicleType.E_BIKE.value = "ebike" ∧
    VehicleType.VAN.value = "van" ∧
    (VehicleType.members.map VehicleType.value).Nodup := by
  refine ⟨rfl, rfl, ?_, rfl, rfl, rfl, rfl, ?_⟩
  · intro v
    cases v <;> simp [VehicleType.members]
  · decide

/-- Claim C2 counterexample: Courier declares four fields, not five, so
no Courier instance has five fields equal to the inputs. -/
theorem C2_counterexample_courier_has_four_fields :
    ¬ Courier.schema.length = 5 := by
  decide

/-- Claim C2 (amended: Courier has four fields, not five): on the raw
record {courier_uid:"C1", courier_transport_vehicle_type:"moped",
courier_experience_level:"novice", courier_route_index:3} the conforming
loader produces a Courier whose four fields equal the inputs verbatim,
with the vehicle type resolved to the MOPED member. -/
theorem C2_loader_example :
    loadCourier exampleRawCourier =
      some ⟨"C1", .MOPED, "novice", 3⟩ ∧
    Courier.schema.length = 4 := by
  exact ⟨rfl, rfl⟩

/-- Claim C3: every field whose name ends in "_uid" in any of the three
schemas is declared with semantic type string. -/
theorem C3_uid_fields_are_strings :
    ∀ p ∈ Courier.schema ++ Delivery.schema ++ Route.schema,
      endsWithUid p.1 = true → p.2 = SemType.str := by
  decide

/-- Witness for claim C3 at the concrete schema entry
(route_uid, string) of the Delivery schema. -/
theorem C3_uid_fields_are_strings_witness :
    ("route_uid", SemType.str) ∈
      Courier.schema ++ Delivery.schema ++ Route.schema ∧
    endsWithUid "route_uid" = true ∧
    ("route_uid", SemType.str).2 = SemType.str :=
  ⟨by decide, by decide,
   C3_uid_fields_are_strings ("route_uid", SemType.str)
     (by decide) (by decide)⟩

/-- Claim C4: Delivery.route_uid and Route.route_uid are both declared
as strings, and Route.courier_uid and Courier.courier_uid are both
declared as strings, so each documented linkage pair is
type-compatible. -/
theorem C4_linkage_pairs_string_typed :
    lookupType Delivery.schema "route_uid" = some .str ∧
    lookupType Route.schema "route_uid" = some .str ∧
    lookupType Route.schema "courier_uid" = some .str ∧
    lookupType Courier.schema "courier_uid" = some .str := by
  decide

/-- Claim C5: each of the three entities declares a non-empty list of
field names in which no field name occurs twice. -/
theorem C5_schemas_nonempty_nodup :
    (Courier.schema ≠ [] ∧ (Courier.schema.map Prod.fst).Nodup) ∧
    (Delivery.schema ≠ [] ∧ (Delivery.schema.map Prod.fst).Nodup) ∧
    (Route.schema ≠ [] ∧ (Route.schema.map Prod.fst).Nodup) := by
  decide

/-- Claim C6: time_of_day is declared with semantic type integer in both
Delivery and Route, and the 0-23 domain is documentation only: every
integer n, including negatives and values above 23, is representable as
the time_of_day of some Delivery and of some Route record. -/
theorem C6_time_of_day_int_unbounded :
    lookupType Delivery.schema "time_of_day" = some .int ∧
    lookupType Route.schema "time_of_day" = some .int ∧
    (∀ n : Int,
      (∃ d : Delivery, d.time_of_day = n) ∧
      (∃ r : Route, r.time_of_day = n)) := by
  refine ⟨by decide, by decide, ?_⟩
  intro n
  constructor
  · exact ⟨⟨"", "", "", 0.0, "", false, "", 0, false, n,
           DateTime.epoch, 0, 0, "", "", 0.0⟩, rfl⟩
  · exact ⟨⟨"", 0, 0, 0, DateTime.epoch, "", "", "", "", "",
           0.0, "", n⟩, rfl⟩

/-- Claim C7: Courier's ordered schema is exactly
[(courier_uid, string), (courier_transport_vehicle_type, closed
enumeration VehicleType), (courier_experience_level, string),
(courier_route_index, integer)], and every semantic type used across the
three entities is drawn from {string, integer, floating-point, boolean,
timestamp, closed enumeration of strings}. -/
theorem C7_courier_schema_and_allowed_types :
    Courier.schema =
      [ ("courier_uid", .str),
        ("courier_transport_vehicle_type", .enum VehicleType.enumValues),
        ("courier_experience_level", .str),
        ("courier_route_index", .int) ] ∧
    ((Courier.schema ++ Delivery.schema ++ Route.schema).all
      (fun p => p.2.allowed)) = true := by
  exact ⟨rfl, by decide⟩

/-- Claim C8: the composition inequality is not enforced by the Route
declaration: every integer triple (t, c, l), including ones violating
composition_total_shipments ≥ containers + loose or containing negative
values, is representable in a Route record, the three fields holding
those values unchanged. -/
theorem C8_composition_not_enforced :
    ∀ t c l : Int, ∃ r : Route,
      r.composition_total_shipments = t ∧
      r.composition_count_containers = c ∧
      r.composition_count_loose_shipments = l := by
  intro t c l
  exact ⟨⟨"", t, c, l, DateTime.epoch, "", "", "", "", "",
         0.0, "", 0⟩, rfl, rfl, rfl⟩

/-- Claim C9: Route.transport_type is declared as a plain string, so
every string is representable there, whereas
Courier.courier_transport_vehicle_type is declared with the VehicleType
enumeration and admits only its four members. -/
theorem C9_transport_type_string_vs_enum :
    lookupType Route.schema "transport_type" = some .str ∧
    lookupType Courier.schema "courier_transport_vehicle_type" =
      some (.enum VehicleType.enumValues) ∧
    (∀ s : String, ∃ r : Route, r.transport_type = s) ∧
    (∀ c : Courier,
      c.courier_transport_vehicle_type ∈ VehicleType.members) := by
  refine ⟨by decide, by decide, ?_, ?_⟩
  · intro s
    exact ⟨⟨"", 0, 0, 0, DateTime.epoch, "", "", "", "", s,
           0.0, "", 0⟩, rfl⟩
  · intro c
    cases h : c.courier_transport_vehicle_type <;>
      simp [VehicleType.members]

/-- Claim C10: the VehicleType value mapping is injective and
round-trips: looking the enumeration up by a member's own string value
returns that member, and distinct members have distinct values. -/
theorem C10_value_roundtrip_injective :
    (∀ m : VehicleType, VehicleType.ofValue m.value = some m) ∧
    Function.Injective VehicleType.value := by
  constructor
  · intro m
    cases m <;> rfl
  · intro a b h
    cases a <;> cases b <;> first | rfl | simp [VehicleType.value] at h

end RelayChalk
